import Mathlib

/-!
Verification of the Vehicle Registration Dashboard harvester against its
design specification.  The definitions below are a shallow embedding of the
Python sources:

* `sql_based_investor_dashboard/sql_vahan_data_scrapper.py` (persistence,
  table selection, record normalisation, sweep orchestration),
* `migrate_csv_to_sql.py` (CSV migration and its normalisers),
* `sql_based_investor_dashboard/sql_app.py` (growth computation).

Pandas cell values are modelled by `Cell` (a number, a leftover string, or a
NaN), numeric values by `ℚ`, SQLite tables by lists of rows in insertion
order, and Python exception control flow by `Option`/explicit branching.
-/

namespace Vahan

/-- A pandas cell after the scraper's cleaning pass: a number, a string that
did not parse as a number, or a missing value (NaN). -/
inductive Cell where
  | num (q : ℚ)
  | text (s : String)
  | missing
deriving DecidableEq, Repr

/-- A row of the `annual_registrations` SQLite table
(`sql_vahan_data_scrapper.py` lines 46-55): columns `Name`, `DataType`,
`Year`, `Registrations`; the `id` autoincrement column is not modelled since
no code reads it.  SQLite is dynamically typed, so the `Name` and
`Registrations` columns hold whatever value the inserting DataFrame carried;
they are therefore `Cell`-valued here. -/
structure AnnualRow where
  name : Cell
  dataType : String
  year : Int
  registrations : Cell
deriving DecidableEq, Repr

/-- The natural composite key `UNIQUE(Name, DataType, Year)` of
`annual_registrations`. -/
def AnnualRow.key (r : AnnualRow) : Cell × String × Int :=
  (r.name, r.dataType, r.year)

/-- A row of the `monthly_registrations` SQLite table
(`sql_vahan_data_scrapper.py` lines 58-68). -/
structure MonthlyRow where
  name : Cell
  dataType : String
  year : Int
  month : String
  registrations : Cell
deriving DecidableEq, Repr

/-- The natural composite key `UNIQUE(Name, DataType, Year, Month)` of
`monthly_registrations`. -/
def MonthlyRow.key (r : MonthlyRow) : Cell × String × Int × String :=
  (r.name, r.dataType, r.year, r.month)

/-- `df.to_sql(..., if_exists='append')` against a table with a UNIQUE
constraint: SQLite raises `IntegrityError` as soon as an inserted row
repeats a key already in the table or a key inserted earlier in the same
batch.  This predicate says whether the batch insert raises. -/
def annualConflict (batch table : List AnnualRow) : Bool :=
  batch.any (fun r => decide (r.key ∈ table.map AnnualRow.key)) ||
    !(decide (batch.map AnnualRow.key).Nodup)

/-- Same conflict test for the monthly table. -/
def monthlyConflict (batch table : List MonthlyRow) : Bool :=
  batch.any (fun r => decide (r.key ∈ table.map MonthlyRow.key)) ||
    !(decide (batch.map MonthlyRow.key).Nodup)

/-- One `to_sql(if_exists='append')` call as executed inside pandas'
transaction: either every row of the batch is appended, or (on an
`IntegrityError`) the transaction is rolled back and the table is
unchanged.  The caller catches the error. -/
def sqlAppendAnnual (batch table : List AnnualRow) : List AnnualRow :=
  if annualConflict batch table then table else table ++ batch

/-- Monthly variant of `sqlAppendAnnual`. -/
def sqlAppendMonthly (batch table : List MonthlyRow) : List MonthlyRow :=
  if monthlyConflict batch table then table else table ++ batch

/-- What `insert_data_into_db` reports: the early return on an empty
DataFrame, a successful insert, or a caught-and-logged `IntegrityError`. -/
inductive InsertLog where
  | noData
  | inserted (n : Nat)
  | integrityError
deriving DecidableEq, Repr

/-- `insert_data_into_db(df, table_name)` of `sql_vahan_data_scrapper.py`
lines 73-94, for the annual table.  An empty DataFrame returns without
touching the database; otherwise `to_sql(..., if_exists='append')` runs and
a key conflict makes the whole batch fail inside the `except
sqlite3.IntegrityError` handler, which only prints.  The function never
propagates an exception, hence it is a total function here. -/
def insert_data_into_db (batch table : List AnnualRow) :
    List AnnualRow × InsertLog :=
  if batch.isEmpty then (table, .noData)
  else if annualConflict batch table then (table, .integrityError)
  else (table ++ batch, .inserted batch.length)

/-- `insert_data_into_db` for the monthly table (same Python function,
called with `table_name = 'monthly_registrations'`). -/
def insert_monthly_into_db (batch table : List MonthlyRow) :
    List MonthlyRow × InsertLog :=
  if batch.isEmpty then (table, .noData)
  else if monthlyConflict batch table then (table, .integrityError)
  else (table ++ batch, .inserted batch.length)

/-! ### String and numeric helpers

Python string/regex operations used by the sources, implemented over
`List Char` so that every definition is kernel-executable. -/

/-- `leadsWith p l` is true when `p` is an initial segment of `l`
(Python's `str.startswith`, and the building block for substring tests). -/
def leadsWith : List Char → List Char → Bool
  | [], _ => true
  | _ :: _, [] => false
  | p :: ps, c :: cs => p == c && leadsWith ps cs

/-- Auxiliary scan for the substring test. -/
def containsSegAux (pat : List Char) : List Char → Bool
  | [] => leadsWith pat []
  | c :: rest => leadsWith pat (c :: rest) || containsSegAux pat rest

/-- Python's `pat in s` substring test. -/
def containsSeg (s pat : String) : Bool :=
  containsSegAux pat.data s.data

/-- Removes every occurrence of `pat` from the character list: Python's
`str.replace(pat, '')` as used on the `'Month Wise_'` column prefixes.
Each step consumes at least one character, so the fuel argument
(instantiated with the list length by `stripSeg`) keeps the recursion
structural; the `0, l` fallback is never reached from `stripSeg`. -/
def stripSegAux (pat : List Char) : Nat → List Char → List Char
  | _, [] => []
  | 0, l => l
  | fuel + 1, c :: rest =>
      if leadsWith pat (c :: rest) && 1 ≤ pat.length then
        stripSegAux pat fuel (rest.drop (pat.length - 1))
      else
        c :: stripSegAux pat fuel rest

/-- Removes every occurrence of `pat` from the character list. -/
def stripSeg (pat l : List Char) : List Char :=
  stripSegAux pat l.length l

/-- `s.replace(pat, '')` on strings. -/
def stripAllSeg (s pat : String) : String :=
  ⟨stripSeg pat.data s.data⟩

/-- Value of a digit string read in base 10. -/
def digitsToNat (cs : List Char) : Nat :=
  cs.foldl (fun n c => 10 * n + (c.toNat - 48)) 0

/-- Python's `int(s)`: an optional sign followed by at least one digit
(the inputs reaching it in this program are already stripped).  `none`
models the `ValueError` branch. -/
def intOfString (s : String) : Option Int :=
  let (sgn, rest) :=
    match s.data with
    | '-' :: r => ((-1 : Int), r)
    | '+' :: r => ((1 : Int), r)
    | r => ((1 : Int), r)
  if rest.length ≥ 1 && rest.all Char.isDigit then
    some (sgn * (digitsToNat rest : Int))
  else none

/-- `pd.to_numeric` applied to a single string: optional sign, an integer
part and an optional fractional part.  `none` models the values that fail
to parse (with `errors='coerce'` these become NaN).  Exponent notation is
not modelled; the cells reaching this parser are plain digit strings
produced by the scraper's comma-stripping pass. -/
def parseNum (s : String) : Option ℚ :=
  let (sgn, rest) :=
    match s.data with
    | '-' :: r => ((-1 : ℚ), r)
    | '+' :: r => ((1 : ℚ), r)
    | r => ((1 : ℚ), r)
  let intPart := rest.takeWhile Char.isDigit
  let tail := rest.dropWhile Char.isDigit
  match tail with
  | [] =>
      if intPart.length ≥ 1 then some (sgn * (digitsToNat intPart : ℚ))
      else none
  | '.' :: frac =>
      if frac.all Char.isDigit && (intPart.length ≥ 1 || frac.length ≥ 1) then
        some (sgn * ((digitsToNat intPart : ℚ) +
          (digitsToNat frac : ℚ) / (10 ^ frac.length)))
      else none
  | _ => none

/-- `pd.to_numeric(x, errors='coerce').fillna(0)` on one cell: numbers pass
through, parseable strings become their value, everything else becomes 0. -/
def coerceFill0 : Cell → ℚ
  | .num q => q
  | .text s => (parseNum s).getD 0
  | .missing => 0

/-- First run of four consecutive digits in a character list, as a number:
pandas' `.str.extract(r'(\d{4})')` followed by `astype(int)`. -/
def firstFourDigits : List Char → Option Nat
  | [] => none
  | c :: cs =>
      if ((c :: cs).take 4).length = 4 && ((c :: cs).take 4).all Char.isDigit then
        some (digitsToNat ((c :: cs).take 4))
      else firstFourDigits cs

/-! ### Wide tables -/

/-- A parsed wide table after header flattening: flat column labels and
rows of cells (a `RawTableCandidate` that has been selected and cleaned). -/
structure CsvTable where
  cols : List String
  rows : List (List Cell)
deriving DecidableEq, Repr

/-- `df[c]` for one row: the cell in the first column labelled `c`,
`missing` when the label is absent. -/
def cellAt (cols : List String) (row : List Cell) (c : String) : Cell :=
  match cols.findIdx? (fun x => decide (x = c)) with
  | some i => row.getD i Cell.missing
  | none => Cell.missing

/-! ### Table Extractor: candidate selection

`scrape_table_data_to_db` (`sql_vahan_data_scrapper.py` lines 304-313) and
`scrape_table_data` (`csv_vahan_data_scrapper.py` lines 238-247) share this
loop verbatim. -/

/-- One candidate table as seen by the selection loop: its column labels
(for MultiIndex headers, Python's `str(col)` of the tuple) and its number
of data rows (`df.shape[0]`). -/
structure RawTable where
  cols : List String
  nrows : Nat
deriving DecidableEq, Repr

/-- `df.size` = number of rows times number of columns. -/
def RawTable.size (t : RawTable) : Nat :=
  t.nrows * t.cols.length

/-- `any('S No' in str(col) or 'S. No' in str(col) for col in df.columns)`. -/
def RawTable.hasSerialCol (t : RawTable) : Bool :=
  t.cols.any (fun c => containsSeg c "S No" || containsSeg c "S. No")

/-- The condition of the `break` branch: a serial-number column together
with more than one row. -/
def RawTable.serialPick (t : RawTable) : Bool :=
  t.hasSerialCol && decide (1 < t.nrows)

/-- The shape threshold of the size rule:
`df.shape[0] > 1 and df.shape[1] > 2`. -/
def RawTable.qualifies (t : RawTable) : Bool :=
  decide (1 < t.nrows) && decide (2 < t.cols.length)

/-- The selection loop with `best_df` as accumulator:

```
for df in tables:
    s_no_found = any('S No' in str(col) or 'S. No' in str(col) ...)
    if s_no_found and df.shape[0] > 1:
        best_df = df
        break
    if df.shape[0] > 1 and df.shape[1] > 2 and (best_df is None or df.size > best_df.size):
        best_df = df
```
-/
def selectBestAux : Option RawTable → List RawTable → Option RawTable
  | best, [] => best
  | best, df :: rest =>
      if df.serialPick then some df
      else if df.qualifies &&
          (match best with
           | none => true
           | some b => decide (b.size < df.size)) then
        selectBestAux (some df) rest
      else selectBestAux best rest

/-- The selected candidate (`best_df` after the loop; `none` means "no
usable data table found" and nothing is scraped). -/
def select_best_table (tables : List RawTable) : Option RawTable :=
  selectBestAux none tables

/-! ### Record Normalizer: the SQL scraper's two persistence paths

`scrape_table_data_to_db`, `sql_vahan_data_scrapper.py` lines 329-363,
applied to the selected table after header flattening and comma-stripping.
Exceptions raised inside the branch (e.g. `int()` on a malformed label or
`melt` on a missing id column) are caught by the function's outer
`try/except`, which returns an empty DataFrame; both are modelled by
`none`, meaning nothing reaches the persistence layer. -/

/-- `re.compile(r'Calendar Year_(\d{4})').match(col)`: anchored at the
start of the label, `'Calendar Year_'` followed by four digits. -/
def isCalendarYearCol (c : String) : Bool :=
  leadsWith "Calendar Year_".data c.data &&
    ((c.data.drop 14).take 4).length = 4 &&
    ((c.data.drop 14).take 4).all Char.isDigit

/-- `int(year_col_name.split('_')[-1])`: the segment after the last `'_'`
(the whole label when no underscore occurs), read as an integer. -/
def yearFromLabel (c : String) : Option Int :=
  intOfString ⟨(c.data.reverse.takeWhile (fun ch => !(ch == '_'))).reverse⟩

/-- The Calendar Year branch (lines 329-342): the first column matching the
year regex provides the year for the whole frame, `Name` is taken
positionally from the second column (`data_df.iloc[:, 1]`) and the
registrations value is the raw cell of that single year column.  No row
filtering of any kind happens on this path. -/
def scrape_annual_frame (yAxis : String) (t : CsvTable) :
    Option (List AnnualRow) :=
  match t.cols.find? isCalendarYearCol with
  | none => none
  | some ycol =>
      match yearFromLabel ycol with
      | none => none
      | some yr =>
          some (t.rows.map (fun r =>
            { name := r.getD 1 Cell.missing
              dataType := yAxis
              year := yr
              registrations := cellAt t.cols r ycol }))

/-- The month columns: `[col for col in data_df.columns if 'Month Wise_' in col]`. -/
def monthColsOf (cols : List String) : List String :=
  cols.filter (fun c => containsSeg c "Month Wise_")

/-- The Month Wise branch (lines 344-361): guard
`'Name' in data_df.columns and month_cols`, then
`melt(id_vars=['S No_S No', 'Name'], value_vars=month_cols, ...)` (which
raises `KeyError`, caught upstream, when `'S No_S No'` is absent), the
`'Month Wise_'` prefix stripped from the month labels, the year taken from
the `FilterCombination`, and every melted value passed through
`pd.to_numeric(errors='coerce').fillna(0)`.  Nothing is dropped: rows with
unparseable or missing month cells are kept with value 0. -/
def scrape_monthly_frame (yAxis : String) (yearVal : Int) (t : CsvTable) :
    Option (List MonthlyRow) :=
  if decide ("Name" ∈ t.cols) && !(monthColsOf t.cols).isEmpty then
    if decide ("S No_S No" ∈ t.cols) then
      some ((monthColsOf t.cols).flatMap (fun m =>
        t.rows.map (fun r =>
          { name := cellAt t.cols r "Name"
            dataType := yAxis
            year := yearVal
            month := stripAllSeg m "Month Wise_"
            registrations := Cell.num (coerceFill0 (cellAt t.cols r m)) })))
    else none
  else none

/-! ### Record Normalizer: the CSV migration's two paths

`migrate_csvs`, `migrate_csv_to_sql.py` lines 73-137 (annual) and
139-200 (monthly). -/

/-- `df.rename(columns=...)`: for Manufacturer files every column whose
label contains `'Maker_Maker'` becomes `'Name'`; for Vehicle Category
files every column containing `'Vehicle Category_Vehicle Category'`
becomes `'Name'`. -/
def renameNameCols (dfType : String) (cols : List String) : List String :=
  if dfType = "Manufacturer" then
    cols.map (fun c => if containsSeg c "Maker_Maker" then "Name" else c)
  else if dfType = "Vehicle Category" then
    cols.map (fun c =>
      if containsSeg c "Vehicle Category_Vehicle Category" then "Name" else c)
  else cols

/-- Does the record pass `df_to_insert[... > 0]`?  The registrations value
on the migration paths is always numeric (it went through
`to_numeric(errors='coerce').fillna(0)`). -/
def AnnualRow.regPositive (r : AnnualRow) : Bool :=
  match r.registrations with
  | .num q => decide (0 < q)
  | _ => false

/-- Monthly variant of `AnnualRow.regPositive`. -/
def MonthlyRow.regPositive (r : MonthlyRow) : Bool :=
  match r.registrations with
  | .num q => decide (0 < q)
  | _ => false

/-- The annual migration normaliser (lines 79-126): rename the name column,
collect the columns matching `re.match(r'Calendar Year_\d{4}', col)`, melt
one output row per (year column × entity row) — pandas orders the melted
frame by value column first — extract the year as the first four-digit run
of the label, coerce the value with `to_numeric(errors='coerce').fillna(0)`,
then `dropna(subset=['Name', ...])` and keep only strictly positive
registrations.  When `'Name'` is missing or no year column exists the file
is skipped (empty batch).  The `.getD 0` for the year is never exercised:
every label in `yearCols` contains a four-digit run by construction. -/
def migrate_annual_batch (dfType : String) (t : CsvTable) : List AnnualRow :=
  let cols := renameNameCols dfType t.cols
  let yearCols := cols.filter isCalendarYearCol
  if decide ("Name" ∈ cols) && !yearCols.isEmpty then
    (yearCols.flatMap (fun y =>
      t.rows.map (fun r =>
        ({ name := cellAt cols r "Name"
           dataType := dfType
           year := ((firstFourDigits y.data).getD 0 : Int)
           registrations := Cell.num (coerceFill0 (cellAt cols r y)) }
          : AnnualRow)))).filter
      (fun rec => !(rec.name == Cell.missing) && rec.regPositive)
  else []

/-- The monthly migration normaliser (lines 145-190): same shape, month
columns are those containing `'Month Wise_'`, the year comes from the file
name, and again only strictly positive registrations survive. -/
def migrate_monthly_batch (dfType : String) (year : Int) (t : CsvTable) :
    List MonthlyRow :=
  let cols := renameNameCols dfType t.cols
  let mcols := monthColsOf cols
  if decide ("Name" ∈ cols) && !mcols.isEmpty then
    (mcols.flatMap (fun m =>
      t.rows.map (fun r =>
        ({ name := cellAt cols r "Name"
           dataType := dfType
           year := year
           month := stripAllSeg m "Month Wise_"
           registrations := Cell.num (coerceFill0 (cellAt cols r m)) }
          : MonthlyRow)))).filter
      (fun rec => !(rec.name == Cell.missing) && rec.regPositive)
  else []

/-! ### The database and the migration driver -/

/-- The two canonical tables of `vahan_data.db`. -/
structure DB where
  annual : List AnnualRow
  monthly : List MonthlyRow
deriving DecidableEq, Repr

/-- `initialize_db(conn)` of `migrate_csv_to_sql.py` lines 14-46:
`DROP TABLE IF EXISTS` on both tables followed by `CREATE TABLE`, so the
prior contents are discarded whatever they were. -/
def initialize_db (_prior : DB) : DB :=
  ⟨[], []⟩

/-- A CSV file handed to the migration: its file name (used to classify it
and to recover the year) and its parsed contents. -/
structure CsvFile where
  fname : String
  table : CsvTable
deriving DecidableEq, Repr

/-- `f.startswith("Y_") and "X_Calendar_Year_Year_" in f and f.endswith(".csv")`. -/
def isCalendarFile (f : CsvFile) : Bool :=
  leadsWith "Y_".data f.fname.data &&
    containsSeg f.fname "X_Calendar_Year_Year_" &&
    leadsWith ".csv".data.reverse f.fname.data.reverse

/-- `f.startswith("Y_") and "X_Month_Wise_Year_" in f and f.endswith(".csv")`. -/
def isMonthFile (f : CsvFile) : Bool :=
  leadsWith "Y_".data f.fname.data &&
    containsSeg f.fname "X_Month_Wise_Year_" &&
    leadsWith ".csv".data.reverse f.fname.data.reverse

/-- `df_type`: `"Vehicle Category"` when the file name contains
`'Y_Vehicle_Category_'`, else `"Manufacturer"`. -/
def dfTypeOf (fname : String) : String :=
  if containsSeg fname "Y_Vehicle_Category_" then "Vehicle Category"
  else "Manufacturer"

/-- `re.search(r'Year_(\d{4})\.csv', file)`: scan for the first occurrence
of `'Year_'` followed by four digits followed by `'.csv'`. -/
def findYearCsv : List Char → Option Int
  | [] => none
  | c :: rest =>
      if leadsWith "Year_".data (c :: rest) &&
          (((c :: rest).drop 5).take 4).length = 4 &&
          (((c :: rest).drop 5).take 4).all Char.isDigit &&
          leadsWith ".csv".data ((c :: rest).drop 9) then
        some (digitsToNat (((c :: rest).drop 5).take 4))
      else findYearCsv rest

/-- Year encoded in a monthly file name; `none` skips the file. -/
def yearOfFile (fname : String) : Option Int :=
  findYearCsv fname.data

/-- `migrate_csvs` of `migrate_csv_to_sql.py` lines 62-203, given the files
found in the data directory in listing order (the function returns before
touching the database when the directory itself is missing; that case is
outside this model).  It connects, runs `initialize_db` (dropping both
tables), then appends the normalised batch of every calendar-year file and
afterwards of every month-wise file; each file's `to_sql` call is wrapped
in a per-file `try/except`, so a failing (conflicting) batch is rolled
back and skipped while the rest of the migration continues. -/
def migrate_csvs (files : List CsvFile) (prior : DB) : DB :=
  let db0 := initialize_db prior
  { annual :=
      (files.filter isCalendarFile).foldl
        (fun tbl f => sqlAppendAnnual (migrate_annual_batch (dfTypeOf f.fname) f.table) tbl)
        db0.annual
    monthly :=
      (files.filter isMonthFile).foldl
        (fun tbl f =>
          match yearOfFile f.fname with
          | none => tbl
          | some y =>
              sqlAppendMonthly (migrate_monthly_batch (dfTypeOf f.fname) y f.table) tbl)
        db0.monthly }

/-- The database states reachable by the program's persistence operations,
starting from a fresh database (the scraper's `initialize_db` creates both
tables empty): any sequence of scraper batch inserts and full
migrations. -/
inductive Reachable : DB → Prop where
  | init : Reachable ⟨[], []⟩
  | insertAnnual (b : List AnnualRow) {db : DB} :
      Reachable db → Reachable ⟨(insert_data_into_db b db.annual).1, db.monthly⟩
  | insertMonthly (b : List MonthlyRow) {db : DB} :
      Reachable db → Reachable ⟨db.annual, (insert_monthly_into_db b db.monthly).1⟩
  | migrate (files : List CsvFile) {db : DB} :
      Reachable db → Reachable (migrate_csvs files db)

/-! ### Growth computation (`sql_app.py`)

`calculate_yoy_growth` (lines 110-134) and `calculate_qoq_growth`
(lines 136-167) end in the same series computation on a per-entity,
period-sorted value column: `shift(1)`, `(cur - prev) / prev * 100`,
`to_numeric(errors='coerce')` and `replace([inf, -inf], pd.NA)`.  The
values are modelled as rationals inside an IEEE-style carrier with NaN and
infinities so that the division-by-zero and shift-NaN behaviour of pandas
is reproduced exactly; the final two-decimal display rounding
(`.round(2)`) is presentational and not modelled. -/

/-- A pandas float: finite, NaN, or a signed infinity. -/
inductive FVal where
  | fin (q : ℚ)
  | nan
  | inf
  | ninf
deriving DecidableEq, Repr

/-- IEEE-style subtraction (only finite/NaN operands occur in the growth
pipeline; the remaining cases follow IEEE conventions). -/
def FVal.sub : FVal → FVal → FVal
  | .fin a, .fin b => .fin (a - b)
  | .nan, _ => .nan
  | _, .nan => .nan
  | .inf, .inf => .nan
  | .inf, _ => .inf
  | .ninf, .ninf => .nan
  | .ninf, _ => .ninf
  | .fin _, .inf => .ninf
  | .fin _, .ninf => .inf

/-- IEEE-style division: a nonzero finite value over zero gives a signed
infinity, `0/0` gives NaN. -/
def FVal.div : FVal → FVal → FVal
  | .nan, _ => .nan
  | _, .nan => .nan
  | .fin a, .fin b =>
      if b = 0 then
        if a = 0 then .nan else if 0 < a then .inf else .ninf
      else .fin (a / b)
  | .inf, .fin b => if b < 0 then .ninf else .inf
  | .ninf, .fin b => if b < 0 then .inf else .ninf
  | .fin _, .inf => .fin 0
  | .fin _, .ninf => .fin 0
  | .inf, .inf => .nan
  | .inf, .ninf => .nan
  | .ninf, .inf => .nan
  | .ninf, .ninf => .nan

/-- Multiplication by the scalar 100. -/
def FVal.mul100 : FVal → FVal
  | .fin a => .fin (a * 100)
  | .nan => .nan
  | .inf => .inf
  | .ninf => .ninf

/-- `pd.to_numeric(s, errors='coerce').replace([inf, -inf], pd.NA)`: finite
values survive, NaN and the infinities all become NA (`none`). -/
def FVal.toNA : FVal → Option ℚ
  | .fin q => some q
  | _ => none

/-- `shift(1)` on the per-entity value column: NaN in front, last value
dropped. -/
def shift1 (vals : List ℚ) : List FVal :=
  .nan :: vals.dropLast.map FVal.fin

/-- The growth column computed by `calculate_yoy_growth` lines 128-132 (and
identically by `calculate_qoq_growth` lines 161-165) for one entity's
sorted series: `((cur - prev) / prev) * 100` with NaN/±inf sent to NA. -/
def calculate_growth_series (vals : List ℚ) : List (Option ℚ) :=
  List.zipWith
    (fun prev cur => ((FVal.sub (.fin cur) prev).div prev).mul100.toNA)
    (shift1 vals) vals

/-! ### Harvest Orchestrator (`sql_vahan_data_scrapper.py`)

The year sweeps `handle_year_selection_month_wise` (lines 434-477) and
`handle_year_selection_calendar` with `select_and_unselect_year`
(lines 378-432, 480-508).  The remote UI's behaviour per combination is an
oracle `HarvestEnv`; every UI wait that can exceed its timeout raises
inside the loop body and is caught there (`continue` / `return`), so the
body is a total function of the oracle. -/

/-- Which steps of one combination succeed: the year-dropdown selection
(`select_dropdown_option` returns `False` on a timeout), the
refresh-trigger click and overlay wait, and the extraction inside
`scrape_table_data_to_db` (which catches its own errors and returns an
empty frame on failure). -/
structure HarvestEnv where
  selectOk : String → Bool
  refreshOk : String → Bool
  scrapeOk : String → Bool

/-- Outcome of one year combination. -/
inductive YearOutcome where
  | selectFailed
  | navFailed
  | extractionFailed
  | success
deriving DecidableEq, Repr

/-- The loop body of `handle_year_selection_month_wise` (lines 454-477):
`if not select_dropdown_option(...): continue`, then the refresh block in
`try/except` with `continue` on error, then `scrape_table_data_to_db`,
which never raises. -/
def processYearMonthWise (env : HarvestEnv) (y : String) : YearOutcome :=
  if !env.selectOk y then .selectFailed
  else if !env.refreshOk y then .navFailed
  else if env.scrapeOk y then .success
  else .extractionFailed

/-- `select_and_unselect_year` (lines 378-432): the same select / refresh /
scrape sequence inside a `try/except` whose `finally` re-opens the
multi-select panel to untick the year — the unselect touches only UI
state, and its own errors are caught, so the outcome is the same function
of the oracle. -/
def select_and_unselect_year (env : HarvestEnv) (y : String) : YearOutcome :=
  if !env.selectOk y then .selectFailed
  else if !env.refreshOk y then .navFailed
  else if env.scrapeOk y then .success
  else .extractionFailed

/-- The Month Wise sweep: one loop iteration per year of the enumerated
list, each producing its outcome independently. -/
def handle_year_selection_month_wise (env : HarvestEnv)
    (years : List String) : List (String × YearOutcome) :=
  years.map (fun y => (y, processYearMonthWise env y))

/-- The Calendar Year sweep (lines 480-508): one
`select_and_unselect_year` call per year of the enumerated list. -/
def handle_year_selection_calendar (env : HarvestEnv)
    (years : List String) : List (String × YearOutcome) :=
  years.map (fun y => (y, select_and_unselect_year env y))

/-! ## Helper lemmas -/

/-- A batch insert raises no `IntegrityError` exactly when no batch key is
already in the table and the batch repeats no key internally. -/
theorem annualConflict_eq_false_iff (batch table : List AnnualRow) :
    annualConflict batch table = false ↔
      (∀ r ∈ batch, r.key ∉ table.map AnnualRow.key) ∧
        (batch.map AnnualRow.key).Nodup := by
  unfold annualConflict
  simp [List.any_eq_true]

/-- Monthly variant of `annualConflict_eq_false_iff`. -/
theorem monthlyConflict_eq_false_iff (batch table : List MonthlyRow) :
    monthlyConflict batch table = false ↔
      (∀ r ∈ batch, r.key ∉ table.map MonthlyRow.key) ∧
        (batch.map MonthlyRow.key).Nodup := by
  unfold monthlyConflict
  simp [List.any_eq_true]

/-- The table produced by `insert_data_into_db` is exactly one
`to_sql`-append transaction. -/
theorem insert_data_into_db_fst (batch table : List AnnualRow) :
    (insert_data_into_db batch table).1 = sqlAppendAnnual batch table := by
  unfold insert_data_into_db sqlAppendAnnual
  by_cases hb : batch.isEmpty
  · rw [List.isEmpty_iff] at hb
    subst hb
    have : annualConflict [] table = false := by
      rw [annualConflict_eq_false_iff]
      simp
    simp [this]
  · simp only [hb, Bool.false_eq_true, if_false]
    split <;> rfl

/-- Monthly variant of `insert_data_into_db_fst`. -/
theorem insert_monthly_into_db_fst (batch table : List MonthlyRow) :
    (insert_monthly_into_db batch table).1 = sqlAppendMonthly batch table := by
  unfold insert_monthly_into_db sqlAppendMonthly
  by_cases hb : batch.isEmpty
  · rw [List.isEmpty_iff] at hb
    subst hb
    have : monthlyConflict [] table = false := by
      rw [monthlyConflict_eq_false_iff]
      simp
    simp [this]
  · simp only [hb, Bool.false_eq_true, if_false]
    split <;> rfl

/-- One append transaction preserves uniqueness of the natural key. -/
theorem sqlAppendAnnual_nodup (batch table : List AnnualRow)
    (h : (table.map AnnualRow.key).Nodup) :
    ((sqlAppendAnnual batch table).map AnnualRow.key).Nodup := by
  unfold sqlAppendAnnual
  by_cases hc : annualConflict batch table
  · simpa [hc] using h
  · rw [Bool.not_eq_true] at hc
    obtain ⟨hdisj, hnd⟩ := (annualConflict_eq_false_iff batch table).mp hc
    simp only [hc, Bool.false_eq_true, if_false, List.map_append]
    refine List.Nodup.append h hnd (List.disjoint_left.mpr ?_)
    intro a ha hb
    obtain ⟨r, hr, rfl⟩ := List.mem_map.mp hb
    exact hdisj r hr ha

/-- Monthly variant of `sqlAppendAnnual_nodup`. -/
theorem sqlAppendMonthly_nodup (batch table : List MonthlyRow)
    (h : (table.map MonthlyRow.key).Nodup) :
    ((sqlAppendMonthly batch table).map MonthlyRow.key).Nodup := by
  unfold sqlAppendMonthly
  by_cases hc : monthlyConflict batch table
  · simpa [hc] using h
  · rw [Bool.not_eq_true] at hc
    obtain ⟨hdisj, hnd⟩ := (monthlyConflict_eq_false_iff batch table).mp hc
    simp only [hc, Bool.false_eq_true, if_false, List.map_append]
    refine List.Nodup.append h hnd (List.disjoint_left.mpr ?_)
    intro a ha hb
    obtain ⟨r, hr, rfl⟩ := List.mem_map.mp hb
    exact hdisj r hr ha

/-! ## Claim C8 -/

/-- C8: `insert_data_into_db` never raises for any input DataFrame: an
empty batch performs no write, and when any row of a batch conflicts with
an existing unique key the whole batch's insert fails inside the caught
`IntegrityError`, leaving the table unchanged — the function always
returns normally with the table either unchanged or extended by the whole
batch. -/
theorem insert_data_into_db_total_and_atomic (batch table : List AnnualRow) :
    ((insert_data_into_db batch table).1 = table ∨
      (insert_data_into_db batch table).1 = table ++ batch) ∧
    (batch = [] → insert_data_into_db batch table = (table, .noData)) ∧
    ((∃ r ∈ batch, r.key ∈ table.map AnnualRow.key) →
      insert_data_into_db batch table = (table, .integrityError)) := by
  refine ⟨?_, ?_, ?_⟩
  · unfold insert_data_into_db
    split
    · exact Or.inl rfl
    · split
      · exact Or.inl rfl
      · exact Or.inr rfl
  · rintro rfl
    rfl
  · rintro ⟨r, hr, hkey⟩
    have hconf : annualConflict batch table = true := by
      unfold annualConflict
      refine Bool.or_eq_true_iff.mpr (Or.inl ?_)
      exact List.any_eq_true.mpr ⟨r, hr, decide_eq_true hkey⟩
    have hne : batch.isEmpty = false := by
      cases batch with
      | nil => cases hr
      | cons a l => rfl
    simp [insert_data_into_db, hne, hconf]

/-- Witness for C8: inserting a batch whose single row repeats the key
`("A", "Manufacturer", 2021)` already in the table is caught and leaves
the table unchanged. -/
theorem insert_data_into_db_total_and_atomic_witness :
    insert_data_into_db
        [⟨.text "A", "Manufacturer", 2021, .num 7⟩]
        [⟨.text "A", "Manufacturer", 2021, .num 5⟩] =
      ([⟨.text "A", "Manufacturer", 2021, .num 5⟩], .integrityError) :=
  (insert_data_into_db_total_and_atomic _ _).2.2
    ⟨⟨.text "A", "Manufacturer", 2021, .num 7⟩, by simp, by decide⟩

/-! ## Claim C1 -/

/-- C1 counterexample: the persistence upsert is NOT replace-by-key.
Applying batch B1 = [("A", "Manufacturer", 2021) ↦ 5] and then
B2 = [("A", "Manufacturer", 2021) ↦ 7] leaves the B1 row with value 5 and
the B2 row nowhere: the conflicting insert is rolled back whole and only
logged, so the overlapping key keeps B1's value, contradicting the claim
that the store then holds exactly B2's rows for overlapping keys. -/
theorem upsert_replace_by_key_counterexample :
    (insert_data_into_db [⟨.text "A", "Manufacturer", 2021, .num 7⟩]
        (insert_data_into_db [⟨.text "A", "Manufacturer", 2021, .num 5⟩] []).1).1 =
      [⟨.text "A", "Manufacturer", 2021, .num 5⟩] ∧
    (⟨.text "A", "Manufacturer", 2021, .num 7⟩ : AnnualRow) ∉
      (insert_data_into_db [⟨.text "A", "Manufacturer", 2021, .num 7⟩]
        (insert_data_into_db [⟨.text "A", "Manufacturer", 2021, .num 5⟩] []).1).1 := by
  constructor
  · rfl
  · decide

/-- C1 (amended): the write is keyed by the natural composite key only in
the sense that a conflicting key makes the whole second batch fail inside
the caught `IntegrityError`: after applying B1 to the empty store, a batch
B2 sharing any key with B1 is dropped entirely (B1's rows survive
unchanged — updates are silently discarded, and no duplicate row is ever
appended), while a B2 with fresh, internally unique keys is appended in
full. -/
theorem insert_overlap_drops_second_batch (b1 b2 : List AnnualRow)
    (h1 : (b1.map AnnualRow.key).Nodup) :
    (insert_data_into_db b1 []).1 = b1 ∧
    ((∃ r ∈ b2, r.key ∈ b1.map AnnualRow.key) →
      (insert_data_into_db b2 (insert_data_into_db b1 []).1).1 = b1) ∧
    ((∀ r ∈ b2, r.key ∉ b1.map AnnualRow.key) → (b2.map AnnualRow.key).Nodup →
      (insert_data_into_db b2 (insert_data_into_db b1 []).1).1 = b1 ++ b2) := by
  have hb1 : (insert_data_into_db b1 []).1 = b1 := by
    rw [insert_data_into_db_fst]
    unfold sqlAppendAnnual
    have : annualConflict b1 [] = false := by
      rw [annualConflict_eq_false_iff]
      exact ⟨by simp, h1⟩
    simp [this]
  refine ⟨hb1, ?_, ?_⟩
  · rintro ⟨r, hr, hkey⟩
    rw [hb1, insert_data_into_db_fst]
    unfold sqlAppendAnnual
    have hconf : annualConflict b2 b1 = true := by
      unfold annualConflict
      refine Bool.or_eq_true_iff.mpr (Or.inl ?_)
      exact List.any_eq_true.mpr ⟨r, hr, decide_eq_true hkey⟩
    simp [hconf]
  · intro hdisj hnd
    rw [hb1, insert_data_into_db_fst]
    unfold sqlAppendAnnual
    have : annualConflict b2 b1 = false := by
      rw [annualConflict_eq_false_iff]
      exact ⟨hdisj, hnd⟩
    simp [this]

/-- Witness for the amended C1 at concrete batches: B1 inserts two rows,
an overlapping B2 is dropped whole, and a disjoint B2 is appended. -/
theorem insert_overlap_drops_second_batch_witness :
    (insert_data_into_db
        [⟨.text "A", "Manufacturer", 2021, .num 5⟩,
         ⟨.text "B", "Manufacturer", 2021, .num 6⟩] []).1 =
      [⟨.text "A", "Manufacturer", 2021, .num 5⟩,
       ⟨.text "B", "Manufacturer", 2021, .num 6⟩] ∧
    (insert_data_into_db
        [⟨.text "A", "Manufacturer", 2021, .num 7⟩]
        (insert_data_into_db
          [⟨.text "A", "Manufacturer", 2021, .num 5⟩,
           ⟨.text "B", "Manufacturer", 2021, .num 6⟩] []).1).1 =
      [⟨.text "A", "Manufacturer", 2021, .num 5⟩,
       ⟨.text "B", "Manufacturer", 2021, .num 6⟩] := by
  have h := insert_overlap_drops_second_batch
    [⟨.text "A", "Manufacturer", 2021, .num 5⟩,
     ⟨.text "B", "Manufacturer", 2021, .num 6⟩]
    [⟨.text "A", "Manufacturer", 2021, .num 7⟩] (by decide)
  exact ⟨h.1, h.2.1 ⟨⟨.text "A", "Manufacturer", 2021, .num 7⟩, by simp, by decide⟩⟩

/-! ## Claim C4 -/

/-- Unfolding of one iteration of the selection loop. -/
theorem selectBestAux_cons (best : Option RawTable) (d : RawTable)
    (rest : List RawTable) :
    selectBestAux best (d :: rest) =
      if d.serialPick = true then some d
      else if (d.qualifies &&
          (match best with
           | none => true
           | some b => decide (b.size < d.size))) = true then
        selectBestAux (some d) rest
      else selectBestAux best rest := rfl

/-- Whatever the accumulator, the loop stops at the first candidate with a
serial-number column and more than one row. -/
theorem selectBestAux_serial (l : List RawTable) (t : RawTable)
    (hf : l.find? RawTable.serialPick = some t) :
    ∀ best, selectBestAux best l = some t := by
  induction l with
  | nil => cases hf
  | cons d rest ih =>
      intro best
      by_cases hd : d.serialPick = true
      · have ht : d = t := by
          rw [List.find?_cons, hd] at hf
          exact Option.some.inj hf
        subst ht
        unfold selectBestAux
        simp [hd]
      · have hf' : rest.find? RawTable.serialPick = some t := by
          rw [List.find?_cons] at hf
          rw [Bool.not_eq_true] at hd
          rwa [hd] at hf
        unfold selectBestAux
        rw [Bool.not_eq_true] at hd
        simp only [hd, Bool.false_eq_true, if_false]
        split
        · exact ih hf' _
        · exact ih hf' _

/-- When no candidate has a serial-number column, the loop is a running
maximum by `df.size` over the candidates passing the shape threshold. -/
theorem selectBestAux_max (l : List RawTable)
    (hno : ∀ t ∈ l, RawTable.serialPick t = false) :
    ∀ best : Option RawTable,
      (∀ s, selectBestAux best l = some s →
        best = some s ∨ (s ∈ l ∧ s.qualifies = true)) ∧
      (∀ b0, best = some b0 →
        ∃ s, selectBestAux best l = some s ∧ b0.size ≤ s.size) ∧
      (∀ t ∈ l, t.qualifies = true →
        ∃ s, selectBestAux best l = some s ∧ t.size ≤ s.size) := by
  induction l with
  | nil =>
      intro best
      refine ⟨fun s hs => Or.inl hs, fun b0 hb0 => ⟨b0, by simp [selectBestAux, hb0], le_refl _⟩,
        fun t ht => absurd ht (List.not_mem_nil t)⟩
  | cons d rest ih =>
      intro best
      have hd : d.serialPick = false := hno d (List.mem_cons_self d rest)
      have hno' : ∀ t ∈ rest, RawTable.serialPick t = false :=
        fun t ht => hno t (List.mem_cons_of_mem d ht)
      by_cases hcond : (d.qualifies &&
          (match best with
           | none => true
           | some b => decide (b.size < d.size))) = true
      · -- the accumulator is replaced by d
        have hq : d.qualifies = true := (Bool.and_eq_true _ _ ▸ hcond).1
        have heq : selectBestAux best (d :: rest) = selectBestAux (some d) rest := by
          rw [selectBestAux_cons, if_neg (by simp [hd]), if_pos hcond]
        obtain ⟨ih1, ih2, ih3⟩ := ih hno' (some d)
        refine ⟨?_, ?_, ?_⟩
        · intro s hs
          rw [heq] at hs
          rcases ih1 s hs with h | h
          · exact Or.inr ⟨Option.some.inj h ▸ List.mem_cons_self d rest,
              Option.some.inj h ▸ hq⟩
          · exact Or.inr ⟨List.mem_cons_of_mem d h.1, h.2⟩
        · intro b0 hb0
          subst hb0
          have hlt : b0.size < d.size :=
            of_decide_eq_true (Bool.and_eq_true _ _ ▸ hcond).2
          obtain ⟨s, hs, hle⟩ := ih2 d rfl
          exact ⟨s, heq ▸ hs, le_trans (le_of_lt hlt) hle⟩
        · intro t ht hqt
          rcases List.mem_cons.mp ht with rfl | ht'
          · obtain ⟨s, hs, hle⟩ := ih2 t rfl
            exact ⟨s, heq ▸ hs, hle⟩
          · obtain ⟨s, hs, hle⟩ := ih3 t ht' hqt
            exact ⟨s, heq ▸ hs, hle⟩
      · -- the accumulator is kept
        rw [Bool.not_eq_true] at hcond
        have heq : selectBestAux best (d :: rest) = selectBestAux best rest := by
          rw [selectBestAux_cons, if_neg (by simp [hd]), if_neg (by rw [hcond]; simp)]
        obtain ⟨ih1, ih2, ih3⟩ := ih hno' best
        refine ⟨?_, ?_, ?_⟩
        · intro s hs
          rw [heq] at hs
          rcases ih1 s hs with h | h
          · exact Or.inl h
          · exact Or.inr ⟨List.mem_cons_of_mem d h.1, h.2⟩
        · intro b0 hb0
          obtain ⟨s, hs, hle⟩ := ih2 b0 hb0
          exact ⟨s, heq ▸ hs, hle⟩
        · intro t ht hqt
          rcases List.mem_cons.mp ht with rfl | ht'
          · -- d qualifies but did not beat the accumulator: best = some b with d.size ≤ b.size
            rw [Bool.and_eq_false_iff] at hcond
            rcases hcond with hq' | hbest
            · rw [hqt] at hq'
              cases hq'
            · cases best with
              | none => cases hbest
              | some b =>
                  have hle : t.size ≤ b.size := by
                    have := of_decide_eq_false hbest
                    omega
                  obtain ⟨s, hs, hle'⟩ := ih2 b rfl
                  exact ⟨s, heq ▸ hs, le_trans hle hle'⟩
          · obtain ⟨s, hs, hle⟩ := ih3 t ht' hqt
            exact ⟨s, heq ▸ hs, hle⟩

/-- C4: in the candidate-selection loop the serial-number rule
short-circuits the size rule.  If any candidate has a column containing
"S No" (or "S. No") together with more than one row, the first such
candidate is selected whatever the sizes of the others; only when no such
candidate exists is a size-maximal table among those with more than one
row and more than two columns selected. -/
theorem select_best_table_spec (tables : List RawTable) :
    (∀ t, tables.find? RawTable.serialPick = some t →
      select_best_table tables = some t) ∧
    (tables.find? RawTable.serialPick = none →
      ∀ t ∈ tables, t.qualifies = true →
        ∃ b, select_best_table tables = some b ∧ b ∈ tables ∧
          b.qualifies = true ∧
          ∀ u ∈ tables, u.qualifies = true → u.size ≤ b.size) := by
  constructor
  · intro t hf
    exact selectBestAux_serial tables t hf none
  · intro hnone t ht hq
    have hno : ∀ u ∈ tables, RawTable.serialPick u = false := by
      intro u hu
      have := List.find?_eq_none.mp hnone u hu
      exact Bool.not_eq_true _ ▸ (by simpa using this)
    obtain ⟨ih1, _, ih3⟩ := selectBestAux_max tables hno none
    obtain ⟨b, hb, _⟩ := ih3 t ht hq
    rcases ih1 b hb with h | ⟨hbmem, hbq⟩
    · cases h
    · refine ⟨b, hb, hbmem, hbq, ?_⟩
      intro u hu hqu
      obtain ⟨s, hs, hle⟩ := ih3 u hu hqu
      rw [hb] at hs
      exact Option.some.inj hs ▸ hle

/-- Witness for C4: a 3-row candidate with an "S No" column is selected
over a much larger candidate without one that precedes it in the list. -/
theorem select_best_table_spec_witness :
    select_best_table
        [⟨["Maker", "2021", "2022", "TOTAL"], 40⟩, ⟨["S No", "Name"], 3⟩] =
      some ⟨["S No", "Name"], 3⟩ :=
  (select_best_table_spec _).1 _ (by decide)

/-! ## Claim C7 -/

/-- C7: per-combination failure isolation.  Both year sweeps visit every
enumerated combination in order, whatever navigation, refresh or
extraction failures the remote UI produces: the outcome list pairs each
year of the input list, in the input order, with its own outcome, and a
combination whose refresh wait times out yields a `navFailed` outcome
without terminating the loop. -/
theorem sweep_isolates_combination_failures (env : HarvestEnv)
    (years : List String) :
    (handle_year_selection_month_wise env years).map Prod.fst = years ∧
    (handle_year_selection_calendar env years).map Prod.fst = years ∧
    (∀ y ∈ years, env.selectOk y = true → env.refreshOk y = false →
      (y, YearOutcome.navFailed) ∈ handle_year_selection_month_wise env years ∧
      (y, YearOutcome.navFailed) ∈ handle_year_selection_calendar env years) := by
  refine ⟨?_, ?_, ?_⟩
  · simp [handle_year_selection_month_wise, List.map_map, Function.comp_def]
  · simp [handle_year_selection_calendar, List.map_map, Function.comp_def]
  · intro y hy hsel href
    constructor
    · have : processYearMonthWise env y = .navFailed := by
        unfold processYearMonthWise
        simp [hsel, href]
      exact this ▸ List.mem_map_of_mem (fun y => (y, processYearMonthWise env y)) hy
    · have : select_and_unselect_year env y = .navFailed := by
        unfold select_and_unselect_year
        simp [hsel, href]
      exact this ▸ List.mem_map_of_mem (fun y => (y, select_and_unselect_year env y)) hy

/-- Witness for C7: with an oracle on which only 2018's refresh wait times
out, the sweep still visits 2017, 2018, 2019 in order, and 2018 is
reported as a navigation failure. -/
theorem sweep_isolates_combination_failures_witness :
    (handle_year_selection_month_wise
        ⟨fun _ => true, fun y => !(y == "2018"), fun _ => true⟩
        ["2017", "2018", "2019"]).map Prod.fst = ["2017", "2018", "2019"] ∧
    ("2018", YearOutcome.navFailed) ∈
      handle_year_selection_month_wise
        ⟨fun _ => true, fun y => !(y == "2018"), fun _ => true⟩
        ["2017", "2018", "2019"] := by
  have h := sweep_isolates_combination_failures
    ⟨fun _ => true, fun y => !(y == "2018"), fun _ => true⟩
    ["2017", "2018", "2019"]
  exact ⟨h.1, (h.2.2 "2018" (by simp) rfl (by rfl)).1⟩

/-! ## Claim C10 -/

/-- C10: on the SQL scraper's MonthWise persistence path every cell that
fails numeric parsing (or is missing) is coerced to 0 before insertion:
the produced batch has one record per (month column × entity row), every
record's value is a number, and a row whose month cell is unparseable or
absent is kept with the value 0 instead of being skipped. -/
theorem scrape_monthly_frame_coerces (yAxis : String) (yearVal : Int)
    (t : CsvTable) (hname : "Name" ∈ t.cols) (hsno : "S No_S No" ∈ t.cols)
    (hm : monthColsOf t.cols ≠ []) :
    ∃ batch, scrape_monthly_frame yAxis yearVal t = some batch ∧
      batch.length = (monthColsOf t.cols).length * t.rows.length ∧
      (∀ rec ∈ batch, ∃ q : ℚ, rec.registrations = Cell.num q) ∧
      (∀ m ∈ monthColsOf t.cols, ∀ r ∈ t.rows,
        (cellAt t.cols r m = Cell.missing ∨
          ∃ s, cellAt t.cols r m = Cell.text s ∧ parseNum s = none) →
        ({ name := cellAt t.cols r "Name", dataType := yAxis, year := yearVal,
           month := stripAllSeg m "Month Wise_",
           registrations := Cell.num 0 } : MonthlyRow) ∈ batch) := by
  have hg1 : (decide ("Name" ∈ t.cols) && !(monthColsOf t.cols).isEmpty) = true := by
    simp [hname, hm]
  have hg2 : decide ("S No_S No" ∈ t.cols) = true := decide_eq_true hsno
  refine ⟨(monthColsOf t.cols).flatMap (fun m =>
      t.rows.map (fun r =>
        ({ name := cellAt t.cols r "Name", dataType := yAxis, year := yearVal,
           month := stripAllSeg m "Month Wise_",
           registrations := Cell.num (coerceFill0 (cellAt t.cols r m)) }
          : MonthlyRow))), ?_, ?_, ?_, ?_⟩
  · unfold scrape_monthly_frame
    rw [if_pos hg1, if_pos hg2]
  · rw [List.length_flatMap]
    have : (List.map (List.length ∘ fun m => t.rows.map (fun r =>
        ({ name := cellAt t.cols r "Name", dataType := yAxis, year := yearVal,
           month := stripAllSeg m "Month Wise_",
           registrations := Cell.num (coerceFill0 (cellAt t.cols r m)) }
          : MonthlyRow))) (monthColsOf t.cols)) =
        List.replicate (monthColsOf t.cols).length t.rows.length := by
      rw [← List.map_const]
      exact List.map_congr_left (fun m _ => by simp)
    rw [this, List.sum_replicate, smul_eq_mul]
  · intro rec hrec
    obtain ⟨m, _, hrec'⟩ := List.mem_flatMap.mp hrec
    obtain ⟨r, _, rfl⟩ := List.mem_map.mp hrec'
    exact ⟨_, rfl⟩
  · intro m hmm r hr hcell
    have h0 : coerceFill0 (cellAt t.cols r m) = 0 := by
      rcases hcell with hmiss | ⟨s, hs, hps⟩
      · rw [hmiss]
        rfl
      · rw [hs]
        simp [coerceFill0, hps]
    refine List.mem_flatMap.mpr ⟨m, hmm, List.mem_map.mpr ⟨r, hr, ?_⟩⟩
    rw [h0]

/-- Witness for C10 at a concrete table: the single `Month Wise_FEB` cell
holds the unparseable text "n/a" and is persisted as the number 0. -/
theorem scrape_monthly_frame_coerces_witness :
    ∃ batch, scrape_monthly_frame "Vehicle Category" 2023
        ⟨["S No_S No", "Name", "Month Wise_FEB"],
         [[.num 1, .text "HERO", .text "n/a"]]⟩ = some batch ∧
      batch.length = 1 * 1 ∧
      (∀ rec ∈ batch, ∃ q : ℚ, rec.registrations = Cell.num q) ∧
      (∀ m ∈ monthColsOf ["S No_S No", "Name", "Month Wise_FEB"],
        ∀ r ∈ [[Cell.num 1, Cell.text "HERO", Cell.text "n/a"]],
        (cellAt ["S No_S No", "Name", "Month Wise_FEB"] r m = Cell.missing ∨
          ∃ s, cellAt ["S No_S No", "Name", "Month Wise_FEB"] r m = Cell.text s ∧
            parseNum s = none) →
        ({ name := cellAt ["S No_S No", "Name", "Month Wise_FEB"] r "Name",
           dataType := "Vehicle Category", year := 2023,
           month := stripAllSeg m "Month Wise_",
           registrations := Cell.num 0 } : MonthlyRow) ∈ batch) :=
  scrape_monthly_frame_coerces "Vehicle Category" 2023
    ⟨["S No_S No", "Name", "Month Wise_FEB"],
     [[.num 1, .text "HERO", .text "n/a"]]⟩
    (by decide) (by decide) (by decide)

/-! ## Claim C3 -/

/-- C3 counterexample: the SQL scraper's MonthWise path does NOT drop
non-positive registrations.  A table whose FEB cell is 0 produces a batch
containing a FEB record with value 0, and inserting that batch persists
the zero row — contradicting the claim that no record with non-positive
registrations is ever persisted. -/
theorem nonpositive_rows_persisted_counterexample :
    scrape_monthly_frame "Vehicle Category" 2023
        ⟨["S No_S No", "Name", "Month Wise_FEB"],
         [[.num 1, .text "HERO", .num 0]]⟩ =
      some [⟨.text "HERO", "Vehicle Category", 2023, "FEB", .num 0⟩] ∧
    (insert_monthly_into_db
        [⟨.text "HERO", "Vehicle Category", 2023, "FEB", .num 0⟩] []).1 =
      [⟨.text "HERO", "Vehicle Category", 2023, "FEB", .num 0⟩] := by
  constructor
  · rfl
  · rfl

/-- C3 (amended): the drop-non-positive policy holds on the CSV migration
paths only: every record of a migration batch (annual or monthly) carries
a strictly positive numeric registrations value, so the migration never
persists a zero or negative row; the SQL scraper's persistence paths apply
no such filter (see the counterexample). -/
theorem migrate_batches_drop_nonpositive (dfType : String) (y : Int)
    (t : CsvTable) :
    (∀ r ∈ migrate_annual_batch dfType t,
      ∃ q : ℚ, r.registrations = Cell.num q ∧ 0 < q) ∧
    (∀ r ∈ migrate_monthly_batch dfType y t,
      ∃ q : ℚ, r.registrations = Cell.num q ∧ 0 < q) := by
  constructor
  · intro r hr
    simp only [migrate_annual_batch] at hr
    split at hr
    · have hp := (List.mem_filter.mp hr).2
      have hpos : r.regPositive = true := (Bool.and_eq_true _ _ ▸ hp).2
      unfold AnnualRow.regPositive at hpos
      match hreg : r.registrations, hpos with
      | .num q, hpos => exact ⟨q, rfl, of_decide_eq_true hpos⟩
    · cases hr
  · intro r hr
    simp only [migrate_monthly_batch] at hr
    split at hr
    · have hp := (List.mem_filter.mp hr).2
      have hpos : r.regPositive = true := (Bool.and_eq_true _ _ ▸ hp).2
      unfold MonthlyRow.regPositive at hpos
      match hreg : r.registrations, hpos with
      | .num q, hpos => exact ⟨q, rfl, of_decide_eq_true hpos⟩
    · cases hr

/-- Witness for the amended C3: in a migration file whose 2021 column
holds 0 for "A" and 4 for "B", the surviving batch records all carry
positive values (here: the "B" record). -/
theorem migrate_batches_drop_nonpositive_witness :
    ∃ q : ℚ,
      (⟨.text "B", "Manufacturer", 2021, .num 4⟩ : AnnualRow).registrations =
        Cell.num q ∧ 0 < q :=
  (migrate_batches_drop_nonpositive "Manufacturer" 0
      ⟨["S No", "Name", "Calendar Year_2021"],
       [[.num 1, .text "A", .num 0], [.num 2, .text "B", .num 4]]⟩).1
    ⟨.text "B", "Manufacturer", 2021, .num 4⟩ (by decide)

/-! ## Claim C2 -/

/-- A concrete five-column wide table with two data rows, exercising the
calendar-year normalisers. -/
def exampleWideTable : CsvTable :=
  ⟨["S No", "Name", "Calendar Year_2021", "Calendar Year_2022", "TOTAL"],
   [[.num 1, .text "A", .num 5, .num 6, .num 11],
    [.num 2, .text "B", .num 7, .num 8, .num 15]]⟩

/-- C2 counterexample: on the wide table with columns
`["S No", "Name", "Calendar Year_2021", "Calendar Year_2022", "TOTAL"]`
and two data rows, the SQL scraper's CalendarYear normalisation path
(`scrape_table_data_to_db` lines 329-342, one of the claim's two cited
realisations) produces 2 records, not 4: it reads only the FIRST column
matching the year regex, so the 2022 column is ignored entirely. -/
theorem normalizer_four_records_counterexample :
    scrape_annual_frame "Maker" exampleWideTable =
      some [⟨.text "A", "Maker", 2021, .num 5⟩,
            ⟨.text "B", "Maker", 2021, .num 7⟩] ∧
    (scrape_annual_frame "Maker" exampleWideTable).map List.length ≠ some 4 := by
  constructor
  · rfl
  · decide

/-- C2 (amended): the two CalendarYear-mode normalisers differ.  The CSV
migration path produces exactly one AnnualRecord per (entity row × year
column) — with the year parsed from the column label and the value taken
from that cell, so no record ever takes its value from a `TOTAL` column,
which never matches the year regex — provided the name cells are present
and the year-column cells are positive numbers (otherwise its
non-positive/NaN filter drops rows); the SQL scraper path instead uses
only the first matching year column and produces exactly one record per
entity row. -/
theorem normalizer_calendar_modes (dfType yAxis : String) (t : CsvTable)
    (hName : "Name" ∈ renameNameCols dfType t.cols)
    (hyc : (renameNameCols dfType t.cols).filter isCalendarYearCol ≠ [])
    (hnm : ∀ r ∈ t.rows,
      cellAt (renameNameCols dfType t.cols) r "Name" ≠ Cell.missing)
    (hpos : ∀ r ∈ t.rows,
      ∀ y ∈ (renameNameCols dfType t.cols).filter isCalendarYearCol,
        ∃ q : ℚ, cellAt (renameNameCols dfType t.cols) r y = Cell.num q ∧ 0 < q) :
    (migrate_annual_batch dfType t).length =
      ((renameNameCols dfType t.cols).filter isCalendarYearCol).length *
        t.rows.length ∧
    (∀ rec ∈ migrate_annual_batch dfType t,
      ∃ y ∈ (renameNameCols dfType t.cols).filter isCalendarYearCol,
        ∃ r ∈ t.rows,
          rec = ⟨cellAt (renameNameCols dfType t.cols) r "Name", dfType,
                 ((firstFourDigits y.data).getD 0 : Int),
                 Cell.num (coerceFill0 (cellAt (renameNameCols dfType t.cols) r y))⟩) ∧
    (∀ l, scrape_annual_frame yAxis t = some l → l.length = t.rows.length) := by
  have hguard : (decide ("Name" ∈ renameNameCols dfType t.cols) &&
      !((renameNameCols dfType t.cols).filter isCalendarYearCol).isEmpty) = true := by
    simp [hName, hyc]
  have hbatch : migrate_annual_batch dfType t =
      ((renameNameCols dfType t.cols).filter isCalendarYearCol).flatMap (fun y =>
        t.rows.map (fun r =>
          ({ name := cellAt (renameNameCols dfType t.cols) r "Name"
             dataType := dfType
             year := ((firstFourDigits y.data).getD 0 : Int)
             registrations :=
               Cell.num (coerceFill0 (cellAt (renameNameCols dfType t.cols) r y)) }
            : AnnualRow))) := by
    simp only [migrate_annual_batch]
    rw [if_pos hguard]
    apply List.filter_eq_self.mpr
    intro rec hrec
    obtain ⟨y, hy, hrec'⟩ := List.mem_flatMap.mp hrec
    obtain ⟨r, hr, rfl⟩ := List.mem_map.mp hrec'
    obtain ⟨q, hq, hqpos⟩ := hpos r hr y hy
    have hn : ((cellAt (renameNameCols dfType t.cols) r "Name" == Cell.missing)
        : Bool) = false :=
      beq_eq_false_iff_ne.mpr (hnm r hr)
    refine Bool.and_eq_true_iff.mpr ⟨by rw [hn]; rfl, ?_⟩
    show AnnualRow.regPositive _ = true
    unfold AnnualRow.regPositive
    rw [hq]
    exact decide_eq_true hqpos
  refine ⟨?_, ?_, ?_⟩
  · rw [hbatch, List.length_flatMap]
    have : (List.map (List.length ∘ fun y =>
        t.rows.map (fun r =>
          ({ name := cellAt (renameNameCols dfType t.cols) r "Name"
             dataType := dfType
             year := ((firstFourDigits y.data).getD 0 : Int)
             registrations :=
               Cell.num (coerceFill0 (cellAt (renameNameCols dfType t.cols) r y)) }
            : AnnualRow)))
          ((renameNameCols dfType t.cols).filter isCalendarYearCol)) =
        List.replicate
          ((renameNameCols dfType t.cols).filter isCalendarYearCol).length
          t.rows.length := by
      rw [← List.map_const]
      exact List.map_congr_left (fun y _ => by simp)
    rw [this, List.sum_replicate, smul_eq_mul]
  · intro rec hrec
    rw [hbatch] at hrec
    obtain ⟨y, hy, hrec'⟩ := List.mem_flatMap.mp hrec
    obtain ⟨r, hr, rfl⟩ := List.mem_map.mp hrec'
    exact ⟨y, hy, r, hr, rfl⟩
  · intro l hl
    unfold scrape_annual_frame at hl
    split at hl
    · cases hl
    · split at hl
      · cases hl
      · have := Option.some.inj hl
        rw [← this, List.length_map]

/-- Witness for the amended C2 at the five-column table with two rows:
the migration normaliser yields 2 × 2 = 4 records and the scraper
normaliser yields 2. -/
theorem normalizer_calendar_modes_witness :
    (migrate_annual_batch "Manufacturer" exampleWideTable).length = 4 ∧
    (∀ l, scrape_annual_frame "Maker" exampleWideTable = some l →
      l.length = 2) := by
  have h := normalizer_calendar_modes "Manufacturer" "Maker" exampleWideTable
    (by decide) (by decide) (by decide)
    (by
      intro r hr y hy
      fin_cases hr <;> fin_cases hy <;> exact ⟨_, rfl, by norm_num⟩)
  exact ⟨h.1.trans (by decide), h.2.2⟩

/-! ## Claim C9 -/

/-- Rows of the annual migration fold come from the initial table or from
one of the folded files' batches. -/
theorem mem_foldl_annual (l : List CsvFile) (init : List AnnualRow)
    (r : AnnualRow)
    (h : r ∈ l.foldl
      (fun tbl f => sqlAppendAnnual (migrate_annual_batch (dfTypeOf f.fname) f.table) tbl)
      init) :
    r ∈ init ∨ ∃ f ∈ l, r ∈ migrate_annual_batch (dfTypeOf f.fname) f.table := by
  induction l generalizing init with
  | nil => exact Or.inl h
  | cons f l ih =>
      rw [List.foldl_cons] at h
      rcases ih _ h with h' | ⟨f', hf', hr⟩
      · unfold sqlAppendAnnual at h'
        split at h'
        · exact Or.inl h'
        · rcases List.mem_append.mp h' with h'' | h''
          · exact Or.inl h''
          · exact Or.inr ⟨f, List.mem_cons_self f l, h''⟩
      · exact Or.inr ⟨f', List.mem_cons_of_mem f hf', hr⟩

/-- Rows of the monthly migration fold come from the initial table or from
one of the folded files' batches (with the year read off the file name). -/
theorem mem_foldl_monthly (l : List CsvFile) (init : List MonthlyRow)
    (r : MonthlyRow)
    (h : r ∈ l.foldl
      (fun tbl f =>
        match yearOfFile f.fname with
        | none => tbl
        | some y => sqlAppendMonthly (migrate_monthly_batch (dfTypeOf f.fname) y f.table) tbl)
      init) :
    r ∈ init ∨ ∃ f ∈ l, ∃ y, yearOfFile f.fname = some y ∧
      r ∈ migrate_monthly_batch (dfTypeOf f.fname) y f.table := by
  induction l generalizing init with
  | nil => exact Or.inl h
  | cons f l ih =>
      rw [List.foldl_cons] at h
      rcases ih _ h with h' | ⟨f', hf', hy⟩
      · cases hyf : yearOfFile f.fname with
        | none => rw [hyf] at h'; exact Or.inl h'
        | some y =>
            rw [hyf] at h'
            change r ∈ sqlAppendMonthly
              (migrate_monthly_batch (dfTypeOf f.fname) y f.table) init at h'
            unfold sqlAppendMonthly at h'
            split at h'
            · exact Or.inl h'
            · rcases List.mem_append.mp h' with h'' | h''
              · exact Or.inl h''
              · exact Or.inr ⟨f, List.mem_cons_self f l, y, hyf, h''⟩
      · exact Or.inr ⟨f', List.mem_cons_of_mem f hf', hy⟩

/-- C9: the CSV-to-SQL migration is destructive to prior state.  Whatever
the database held before, `migrate_csvs` first drops and recreates both
tables, so the resulting database does not depend on the prior contents at
all, and every row it holds is derived from some CSV file present in the
data directory — no previously persisted row survives. -/
theorem migrate_csvs_destroys_prior (files : List CsvFile) (p1 p2 : DB) :
    migrate_csvs files p1 = migrate_csvs files p2 ∧
    (∀ r ∈ (migrate_csvs files p1).annual,
      ∃ f ∈ files, isCalendarFile f = true ∧
        r ∈ migrate_annual_batch (dfTypeOf f.fname) f.table) ∧
    (∀ r ∈ (migrate_csvs files p1).monthly,
      ∃ f ∈ files, isMonthFile f = true ∧ ∃ y, yearOfFile f.fname = some y ∧
        r ∈ migrate_monthly_batch (dfTypeOf f.fname) y f.table) := by
  refine ⟨rfl, ?_, ?_⟩
  · intro r hr
    unfold migrate_csvs initialize_db at hr
    rcases mem_foldl_annual _ _ _ hr with h | ⟨f, hf, hrf⟩
    · cases h
    · exact ⟨f, (List.mem_filter.mp hf).1, (List.mem_filter.mp hf).2, hrf⟩
  · intro r hr
    unfold migrate_csvs initialize_db at hr
    rcases mem_foldl_monthly _ _ _ hr with h | ⟨f, hf, y, hy, hrf⟩
    · cases h
    · exact ⟨f, (List.mem_filter.mp hf).1, (List.mem_filter.mp hf).2, y, hy, hrf⟩

/-- Witness for C9: a database already holding an annual and a monthly row
is wiped by a migration over a single calendar-year file; the result is
the same as migrating over an empty database, and its only contents come
from the file. -/
theorem migrate_csvs_destroys_prior_witness :
    migrate_csvs
        [⟨"Y_Maker_X_Calendar_Year_Year_2021.csv",
          ⟨["S No", "Name", "Calendar Year_2021"],
           [[.num 1, .text "HERO", .num 9]]⟩⟩]
        ⟨[⟨.text "OLD", "Manufacturer", 2019, .num 1⟩],
         [⟨.text "OLD", "Manufacturer", 2019, "JAN", .num 2⟩]⟩ =
      migrate_csvs
        [⟨"Y_Maker_X_Calendar_Year_Year_2021.csv",
          ⟨["S No", "Name", "Calendar Year_2021"],
           [[.num 1, .text "HERO", .num 9]]⟩⟩]
        ⟨[], []⟩ ∧
    migrate_csvs
        [⟨"Y_Maker_X_Calendar_Year_Year_2021.csv",
          ⟨["S No", "Name", "Calendar Year_2021"],
           [[.num 1, .text "HERO", .num 9]]⟩⟩]
        ⟨[⟨.text "OLD", "Manufacturer", 2019, .num 1⟩],
         [⟨.text "OLD", "Manufacturer", 2019, "JAN", .num 2⟩]⟩ =
      ⟨[⟨.text "HERO", "Manufacturer", 2021, .num 9⟩], []⟩ := by
  constructor
  · exact (migrate_csvs_destroys_prior _ _ _).1
  · rfl

/-! ## Claim C5 -/

/-- The annual migration fold preserves key uniqueness. -/
theorem foldl_annual_nodup (l : List CsvFile) (init : List AnnualRow)
    (h : (init.map AnnualRow.key).Nodup) :
    ((l.foldl
      (fun tbl f => sqlAppendAnnual (migrate_annual_batch (dfTypeOf f.fname) f.table) tbl)
      init).map AnnualRow.key).Nodup := by
  induction l generalizing init with
  | nil => exact h
  | cons f l ih =>
      rw [List.foldl_cons]
      exact ih _ (sqlAppendAnnual_nodup _ _ h)

/-- The monthly migration fold preserves key uniqueness. -/
theorem foldl_monthly_nodup (l : List CsvFile) (init : List MonthlyRow)
    (h : (init.map MonthlyRow.key).Nodup) :
    ((l.foldl
      (fun tbl f =>
        match yearOfFile f.fname with
        | none => tbl
        | some y => sqlAppendMonthly (migrate_monthly_batch (dfTypeOf f.fname) y f.table) tbl)
      init).map MonthlyRow.key).Nodup := by
  induction l generalizing init with
  | nil => exact h
  | cons f l ih =>
      rw [List.foldl_cons]
      cases hyf : yearOfFile f.fname with
      | none => exact ih _ h
      | some y => exact ih _ (sqlAppendMonthly_nodup _ _ h)

/-- C5: in every reachable database state, `annual_registrations` never
holds two rows with the same (Name, DataType, Year) and
`monthly_registrations` never holds two rows with the same
(Name, DataType, Year, Month): SQLite's UNIQUE constraints abort every
violating batch whole, and the migration rebuilds both tables from empty
through the same constraint-checked appends. -/
theorem reachable_db_keys_unique (db : DB) (h : Reachable db) :
    (db.annual.map AnnualRow.key).Nodup ∧
      (db.monthly.map MonthlyRow.key).Nodup := by
  induction h with
  | init => exact ⟨List.nodup_nil, List.nodup_nil⟩
  | insertAnnual b _ ih =>
      exact ⟨by rw [insert_data_into_db_fst]; exact sqlAppendAnnual_nodup _ _ ih.1,
        ih.2⟩
  | insertMonthly b _ ih =>
      exact ⟨ih.1,
        by rw [insert_monthly_into_db_fst]; exact sqlAppendMonthly_nodup _ _ ih.2⟩
  | migrate files _ _ =>
      unfold migrate_csvs initialize_db
      exact ⟨foldl_annual_nodup _ _ List.nodup_nil,
        foldl_monthly_nodup _ _ List.nodup_nil⟩

/-- Witness for C5: the state reached by inserting a two-row batch into
the fresh database is reachable and satisfies the uniqueness invariant. -/
theorem reachable_db_keys_unique_witness :
    Reachable ⟨[⟨.text "A", "Manufacturer", 2021, .num 5⟩,
                ⟨.text "B", "Manufacturer", 2021, .num 6⟩], []⟩ ∧
    (([⟨.text "A", "Manufacturer", 2021, .num 5⟩,
       ⟨.text "B", "Manufacturer", 2021, .num 6⟩] :
        List AnnualRow).map AnnualRow.key).Nodup := by
  have hr : Reachable ⟨[⟨.text "A", "Manufacturer", 2021, .num 5⟩,
      ⟨.text "B", "Manufacturer", 2021, .num 6⟩], []⟩ := by
    have h := Reachable.insertAnnual
      [⟨.text "A", "Manufacturer", 2021, .num 5⟩,
       ⟨.text "B", "Manufacturer", 2021, .num 6⟩] Reachable.init
    exact h
  exact ⟨hr, (reachable_db_keys_unique _ hr).1⟩

/-! ## Claim C6 -/

/-- The growth column has one entry per period of the series. -/
theorem calculate_growth_series_length (vals : List ℚ) :
    (calculate_growth_series vals).length = vals.length := by
  unfold calculate_growth_series shift1
  rw [List.length_zipWith]
  cases vals with
  | nil => simp
  | cons v vs => simp

/-- C6: the growth computation uses the immediately preceding period as
baseline, and the growth entry is NA exactly for the first period of the
series and for periods whose baseline value is zero; everywhere else it
equals `((value_i - value_(i-1)) / value_(i-1)) * 100`.  (The trailing
two-decimal display rounding of the source is presentational and not
modelled.) -/
theorem calculate_growth_series_spec (vals : List ℚ) (i : Nat)
    (hi : i < vals.length) :
    (calculate_growth_series vals).getD i none =
      if i = 0 then none
      else if vals.getD (i - 1) 0 = 0 then none
      else some ((vals.getD i 0 - vals.getD (i - 1) 0) /
        vals.getD (i - 1) 0 * 100) := by
  cases i with
  | zero =>
      cases vals with
      | nil => cases hi
      | cons v vs => rfl
  | succ j =>
      have h1 : j < vals.length := by omega
      have hj1 : j + 1 < vals.length := hi
      have hshift : (shift1 vals)[j + 1]? = some (FVal.fin (vals.getD j 0)) := by
        unfold shift1
        rw [List.getElem?_cons_succ, List.getElem?_map, List.dropLast_eq_take,
          List.getElem?_take, if_pos (by omega : j < vals.length - 1),
          List.getElem?_eq_getElem h1]
        rw [List.getD_eq_getElem vals 0 h1]
        rfl
      have hvals : vals[j + 1]? = some (vals.getD (j + 1) 0) := by
        rw [List.getElem?_eq_getElem hj1, List.getD_eq_getElem vals 0 hj1]
      show (List.zipWith
          (fun prev cur => ((FVal.sub (.fin cur) prev).div prev).mul100.toNA)
          (shift1 vals) vals).getD (j + 1) none = _
      rw [List.getD_eq_getElem?_getD, List.getElem?_zipWith, hshift, hvals]
      simp only [Nat.succ_ne_zero, if_false, Nat.add_sub_cancel, Option.getD_some]
      by_cases hz : vals.getD j 0 = 0
      · rw [if_pos hz, hz]
        show (((FVal.fin (vals.getD (j + 1) 0 - 0)).div (.fin 0)).mul100).toNA = none
        simp only [FVal.div]
        rw [if_pos trivial]
        split
        · rfl
        · split <;> rfl
      · rw [if_neg hz]
        show (((FVal.fin (vals.getD (j + 1) 0 - vals.getD j 0)).div
          (.fin (vals.getD j 0))).mul100).toNA = _
        simp only [FVal.div]
        rw [if_neg hz]
        rfl

/-- Witness for C6 on the series `[2, 4, 0, 6]`: the first entry is NA,
the second is a 100% rise, the third a 100% fall, and the fourth is NA
because its baseline is zero. -/
theorem calculate_growth_series_spec_witness :
    (calculate_growth_series [2, 4, 0, 6]).getD 0 none = none ∧
    (calculate_growth_series [2, 4, 0, 6]).getD 1 none = some 100 ∧
    (calculate_growth_series [2, 4, 0, 6]).getD 2 none = some (-100) ∧
    (calculate_growth_series [2, 4, 0, 6]).getD 3 none = none := by
  refine ⟨?_, ?_, ?_, ?_⟩
  · have h := calculate_growth_series_spec [2, 4, 0, 6] 0 (by norm_num)
    simpa using h
  · have h := calculate_growth_series_spec [2, 4, 0, 6] 1 (by norm_num)
    rw [h]
    norm_num
  · have h := calculate_growth_series_spec [2, 4, 0, 6] 2 (by norm_num)
    rw [h]
    norm_num
  · have h := calculate_growth_series_spec [2, 4, 0, 6] 3 (by norm_num)
    rw [h]
    norm_num

end Vahan
